import Mathlib

/-!
Verification development for the Flames CRM backend (src/main.py, src/schemas.py).

The backend stores JSON-like documents in named collections of a document
database and exposes HTTP handlers for create / list / field-update plus a
dashboard aggregation.  We embed the document model, the query fragments the
handlers build, and the handler logic itself, and prove the specified
properties about them.

The gateway module `database.py` (providing `create_document` and
`get_documents`) and the document store's query evaluator are not part of the
sources; those pieces are modelled from the specification and marked as such
in their doc comments.  Everything else is translated directly from
src/main.py and src/schemas.py.
-/

namespace CRM

/-- A JSON-like scalar value stored in a document field. -/
inductive BVal where
  | null
  | bool (b : Bool)
  | num (q : ℚ)
  | str (s : String)
deriving DecidableEq, Repr

/-- A document: an association list of field names to values, unique keys,
first binding wins (models a Python dict / BSON document). -/
abbrev Doc := List (String × BVal)

/-- Field lookup in a document, like Python's `doc.get(k)`. -/
def Doc.get (d : Doc) (f : String) : Option BVal :=
  (d.find? (fun p => p.1 == f)).map (fun p => p.2)

/-- Lowercase a string character by character. -/
def lowerStr (s : String) : String := String.mk (s.toList.map Char.toLower)

/-- Does `pat` occur at the start of `s`? -/
def listStartsWith : List Char → List Char → Bool
  | [], _ => true
  | _ :: _, [] => false
  | p :: ps, c :: cs => p == c && listStartsWith ps cs

/-- Does `pat` occur as a contiguous sublist of `s`? -/
def listHasSub : List Char → List Char → Bool
  | pat, [] => pat.isEmpty
  | pat, c :: rest => listStartsWith pat (c :: rest) || listHasSub pat rest

/-- Case-insensitive substring containment: `pat` occurs in `s` ignoring case. -/
def ciContains (pat s : String) : Bool :=
  listHasSub (lowerStr pat).toList (lowerStr s).toList

/-- Modelled from the spec: an atomic field condition of a store query, as
built by the handlers in src/main.py.  The store's query language itself is
not in the sources; §4.2/§4.3 of the spec describe equality filters, the
stage membership filter, and the free-text filter "matched case-insensitively
against ... substrings", which `regexI` embodies. -/
inductive Atom where
  | eqv (f : String) (v : BVal)
  | inv (f : String) (vs : List BVal)
  | regexI (f : String) (pat : String)
deriving DecidableEq, Repr

/-- One top-level entry of a query document: either a single field condition
or a disjunction (the handlers only ever place single atoms under the
disjunction). -/
inductive Clause where
  | atom (a : Atom)
  | orC (alts : List Atom)
deriving DecidableEq, Repr

/-- A query document: the conjunction of its top-level clauses. -/
abbrev Query := List Clause

/-- Modelled from the spec: satisfaction of an atomic condition by a
document.  Equality and membership filters require the field to be present
with the given value; the case-insensitive free-text filter requires a
present string field containing the pattern (a filter on an absent field
matches nothing). -/
def Atom.holds (d : Doc) : Atom → Bool
  | .eqv f v => Doc.get d f == some v
  | .inv f vs => vs.any (fun v => Doc.get d f == some v)
  | .regexI f pat =>
      match Doc.get d f with
      | some (BVal.str s) => ciContains pat s
      | _ => false

/-- Satisfaction of a top-level clause by a document. -/
def Clause.holds (d : Doc) : Clause → Bool
  | .atom a => Atom.holds d a
  | .orC alts => alts.any (Atom.holds d)

/-- Satisfaction of a whole query by a document (conjunction of clauses;
the empty query matches every document). -/
def qmatches (d : Doc) (q : Query) : Bool := q.all (Clause.holds d)

/-- The collections the verified handlers touch (each a list of documents,
in insertion order). -/
structure Store where
  lead : List Doc
  deal : List Doc
  task : List Doc
  activity : List Doc
deriving Repr

/-- The `count` helper of `dashboard_snapshot` (src/main.py line 50):
`count_documents` of the documents matching a query. -/
def countDocs (docs : List Doc) (q : Query) : Nat :=
  (docs.filter (fun d => qmatches d q)).length

/-- Python's `d.get("value", 0)` coerced to a number; documents whose `value`
field holds a non-numeric value are outside the Deal schema and contribute 0. -/
def docValue (d : Doc) : ℚ :=
  match Doc.get d "value" with
  | some (BVal.num q) => q
  | _ => 0

/-- Floor of a rational as an integer (`Int.fdiv` is floor division). -/
def ratFloor (q : ℚ) : Int := Int.fdiv q.num (q.den : Int)

/-- Round a rational to the nearest integer, ties to even, as Python's
builtin `round` does. -/
def roundHalfEven (q : ℚ) : Int :=
  let n := ratFloor q
  let frac := q - (n : ℚ)
  if frac < 1 / 2 then n
  else if 1 / 2 < frac then n + 1
  else if n % 2 = 0 then n else n + 1

/-- Python's `round(x, 2)`: round to two decimal places, ties to even. -/
def pyRound2 (q : ℚ) : ℚ := (roundHalfEven (q * 100) : ℚ) / 100

/-- The group key used by the dashboard's `$group` on `"$stage"`: documents
without the field are grouped under null. -/
def stageKey (d : Doc) : BVal := (Doc.get d "stage").getD BVal.null

/-- The dashboard's pipeline aggregation (src/main.py lines 59-62): group the
deal documents by stage, producing one (stage, count) pair per distinct
stage value, order unspecified (here: order of first appearance). -/
def groupCount (docs : List Doc) : List (BVal × Nat) :=
  ((docs.map stageKey).dedup).map
    (fun k => (k, docs.countP (fun d => stageKey d == k)))

/-- The scalar cards and pipeline breakdown of the dashboard response
(src/main.py lines 66-75).  The `recentActivities` feed is not modelled: no
verified property concerns it. -/
structure Dashboard where
  totalLeads : Nat
  totalDeals : Nat
  revenue : ℚ
  conversionRate : ℚ
  pipeline : List (BVal × Nat)
deriving Repr

/-- The dashboard handler `dashboard_snapshot` (src/main.py lines 45-75),
translated clause by clause: total lead and deal counts, revenue summed over
deals whose stage is in {won, closed-won}, conversion rate
`qualified / total_leads * 100` when `total_leads` is truthy else 0 and then
rounded to 2 places, and the stage pipeline. -/
def dashboard_snapshot (st : Store) : Dashboard :=
  let total_leads := countDocs st.lead []
  let total_deals := countDocs st.deal []
  let total_revenue :=
    ((st.deal.filter (fun d =>
        qmatches d [Clause.atom (Atom.inv "stage" [BVal.str "won", BVal.str "closed-won"])])).map
      docValue).sum
  let qualified := countDocs st.lead [Clause.atom (Atom.eqv "status" (BVal.str "qualified"))]
  let conversion_rate : ℚ :=
    if total_leads ≠ 0 then (qualified : ℚ) / (total_leads : ℚ) * 100 else 0
  { totalLeads := total_leads
    totalDeals := total_deals
    revenue := total_revenue
    conversionRate := pyRound2 conversion_rate
    pipeline := groupCount st.deal }

/-- The request body of POST /api/leads as parsed, before constraint
validation: the fields of the `Lead` pydantic model (src/schemas.py lines
43-51).  Required `name`; every other field optional with `none` standing for
an omitted field (defaults: status "new", all others absent). -/
structure LeadIn where
  name : String
  email : Option String := none
  phone : Option String := none
  status : Option String := none
  source : Option String := none
  owner_id : Option String := none
  score : Option Int := none
  notes : Option String := none
deriving DecidableEq, Repr

/-- The constraint `Field(None, ge=0, le=100)` on `Lead.score`
(src/schemas.py line 50): absent passes, a given value must lie in [0, 100]. -/
def scoreOk : Option Int → Bool
  | none => true
  | some v => decide (0 ≤ v) && decide (v ≤ 100)

/-- The `Literal["new", "contacted", "qualified", "lost"]` constraint on
`Lead.status` (src/schemas.py line 47); absent takes the default "new". -/
def statusOk : Option String → Bool
  | none => true
  | some s => ["new", "contacted", "qualified", "lost"].contains s

/-- Schema validation of a Lead create body, parameterized by the `EmailStr`
format check (a third-party validator whose internals are not part of the
sources); `Optional[EmailStr]` accepts an absent email unconditionally. -/
def leadValid (emailOk : String → Bool) (l : LeadIn) : Bool :=
  (match l.email with
   | none => true
   | some e => emailOk e) &&
  statusOk l.status &&
  scoreOk l.score

/-- The request body of POST /api/deals as parsed, before constraint
validation: the fields of the `Deal` pydantic model (src/schemas.py lines
53-62).  Required `title`; `none` stands for an omitted field (defaults:
value 0.0, stage "prospecting", all others absent). -/
structure DealIn where
  title : String
  account_id : Option String := none
  contact_id : Option String := none
  value : Option ℚ := none
  close_date : Option String := none
  stage : Option String := none
  probability : Option Int := none
  lost_reason : Option String := none
  owner_id : Option String := none
deriving DecidableEq, Repr

/-- Schema validation of a Deal create body: the only range constraint in
`Deal` is `Field(None, ge=0, le=100)` on `probability` (src/schemas.py line
60); `value: float = 0.0` carries no constraint. -/
def dealValid (d : DealIn) : Bool :=
  match d.probability with
  | none => true
  | some p => decide (0 ≤ p) && decide (p ≤ 100)

/-- The value a parsed Deal carries: the default 0.0 when the field was
omitted (src/schemas.py line 57). -/
def dealValue (d : DealIn) : ℚ := d.value.getD 0

/-- The stage a parsed Deal carries: the default "prospecting" when the
field was omitted (src/schemas.py line 59). -/
def dealStage (d : DealIn) : String := d.stage.getD "prospecting"

/-- Modelled from the spec: `create_document` of the absent gateway module
`database.py` (§4.2: "serializes the entity to a document, assigns it a new
unique identifier, persists it, returns the identifier as a string").  The
store-assigned identifier is passed in as `newId`. -/
def create_document (coll : List Doc) (payload : Doc) (newId : String) :
    List Doc × String :=
  (coll ++ [payload ++ [("_id", BVal.str newId)]], newId)

/-- The handler `create_lead` (src/main.py lines 82-85): insert the payload
and answer `{"_id": lead_id}`. -/
def create_lead (st : Store) (payload : Doc) (newId : String) : Store × Doc :=
  let r := create_document st.lead payload newId
  ({ st with lead := r.1 }, [("_id", BVal.str r.2)])

/-- The handler `create_deal` (src/main.py lines 112-115). -/
def create_deal (st : Store) (payload : Doc) (newId : String) : Store × Doc :=
  let r := create_document st.deal payload newId
  ({ st with deal := r.1 }, [("_id", BVal.str r.2)])

/-- The handler `create_task` (src/main.py lines 138-141). -/
def create_task (st : Store) (payload : Doc) (newId : String) : Store × Doc :=
  let r := create_document st.task payload newId
  ({ st with task := r.1 }, [("_id", BVal.str r.2)])

/-- The handler `create_activity` (src/main.py lines 162-165). -/
def create_activity (st : Store) (payload : Doc) (newId : String) : Store × Doc :=
  let r := create_document st.activity payload newId
  ({ st with activity := r.1 }, [("_id", BVal.str r.2)])

/-- An optional equality filter added to a query only when the parameter is
truthy, as in `if status: query["status"] = status` (Python's `if` drops
both `None` and the empty string). -/
def optFilter (f : String) (v : Option String) : Query :=
  match v with
  | none => []
  | some s => if s = "" then [] else [Clause.atom (Atom.eqv f (BVal.str s))]

/-- The query document built by `list_leads` (src/main.py lines 87-97): an
optional `status` equality filter plus, for truthy `q`, an `$or` of
case-insensitive free-text filters over name, email and phone. -/
def list_leads_query (status q : Option String) : Query :=
  optFilter "status" status ++
  (match q with
   | none => []
   | some qs =>
     if qs = "" then []
     else [Clause.orC [Atom.regexI "name" qs, Atom.regexI "email" qs,
                       Atom.regexI "phone" qs]])

/-- The query document built by `list_deals` (src/main.py lines 117-123): an
optional `stage` equality filter plus, for truthy `q`, a case-insensitive
free-text filter on the title. -/
def list_deals_query (stage q : Option String) : Query :=
  optFilter "stage" stage ++
  (match q with
   | none => []
   | some qs => if qs = "" then [] else [Clause.atom (Atom.regexI "title" qs)])

/-- The query document built by `list_tasks` (src/main.py lines 143-148):
only the optional `owner_id` equality filter; the `due` parameter is
accepted but never used. -/
def list_tasks_query (owner_id : Option String) : Query :=
  optFilter "owner_id" owner_id

/-- The query document built by `list_activities` (src/main.py lines
167-173): optional equality filters on `related_type` and `related_id`. -/
def list_activities_query (related_type related_id : Option String) : Query :=
  optFilter "related_type" related_type ++ optFilter "related_id" related_id

/-- Modelled from the spec: `get_documents` of the absent gateway module
`database.py` (§4.2: "executes a filter query, returns up to limit matching
documents"). -/
def get_documents (docs : List Doc) (q : Query) (limit : Nat) : List Doc :=
  (docs.filter (fun d => qmatches d q)).take limit

/-- The handler `list_leads` (src/main.py lines 87-99). -/
def list_leads (st : Store) (status q : Option String) (limit : Nat) : List Doc :=
  get_documents st.lead (list_leads_query status q) limit

/-- The handler `list_deals` (src/main.py lines 117-125). -/
def list_deals (st : Store) (stage q : Option String) (limit : Nat) : List Doc :=
  get_documents st.deal (list_deals_query stage q) limit

/-- The handler `list_tasks` (src/main.py lines 143-149); `due` is accepted
but ignored, exactly as in the source. -/
def list_tasks (st : Store) (owner_id due : Option String) (limit : Nat) : List Doc :=
  get_documents st.task (list_tasks_query owner_id) limit

/-- The handler `list_activities` (src/main.py lines 167-175). -/
def list_activities (st : Store) (related_type related_id : Option String)
    (limit : Nat) : List Doc :=
  get_documents st.activity (list_activities_query related_type related_id) limit

/-- One hexadecimal digit (either case). -/
def isHexDigitChar (c : Char) : Bool :=
  c.isDigit || (decide ('a' ≤ c) && decide (c ≤ 'f')) ||
    (decide ('A' ≤ c) && decide (c ≤ 'F'))

/-- The identifier format accepted by `to_object_id` (src/main.py lines
37-41): `ObjectId(id_str)` succeeds on a string exactly when it is a
24-character hexadecimal string, the store-native identifier format. -/
def isValidObjectId (s : String) : Bool :=
  s.length == 24 && s.toList.all isHexDigitChar

/-- Write one field of a document: replace the binding when the key exists,
otherwise append it (one key/value pair of a `$set`). -/
def setField (d : Doc) (k : String) (v : BVal) : Doc :=
  if d.any (fun p => p.1 == k) then
    d.map (fun p => if p.1 = k then (k, v) else p)
  else d ++ [(k, v)]

/-- The `$set` update applied by the PATCH handlers: overlay every field of
the free-form map `data` onto the document, leaving all other fields
untouched.  No schema validation is involved. -/
def applySet (d : Doc) (data : Doc) : Doc :=
  data.foldl (fun acc p => setField acc p.1 p.2) d

/-- `update_one` of the store: apply `$set` to the first document whose
`_id` equals the given identifier, returning the new collection and the
matched count (0 or 1). -/
def updateOne (docs : List Doc) (idv : BVal) (data : Doc) : List Doc × Nat :=
  match docs with
  | [] => ([], 0)
  | d :: rest =>
    if Doc.get d "_id" = some idv then (applySet d data :: rest, 1)
    else
      let r := updateOne rest idv data
      (d :: r.1, r.2)

/-- The error outcomes of the PATCH handlers: a malformed identifier
(HTTP 400, raised by `to_object_id`) or a missing target (HTTP 404). -/
inductive HErr where
  | invalidId
  | notFound
deriving DecidableEq, Repr

/-- The HTTP status code each PATCH error is surfaced with
(src/main.py lines 41 and 107). -/
def HErr.code : HErr → Nat
  | .invalidId => 400
  | .notFound => 404

/-- The shared logic of `update_lead`, `update_deal` and `update_task`
(src/main.py lines 101-108, 127-134, 151-158): parse the path identifier
(HTTP 400 when malformed), `update_one` with `$set`, HTTP 404 when nothing
matched, else `{"updated": True}`. -/
def updateHandler (docs : List Doc) (idStr : String) (data : Doc) :
    Except HErr (List Doc × Doc) :=
  if isValidObjectId idStr then
    let r := updateOne docs (BVal.str idStr) data
    if r.2 == 0 then .error .notFound
    else .ok (r.1, [("updated", BVal.bool true)])
  else .error .invalidId

/-- The handler `update_lead` (src/main.py lines 101-108). -/
def update_lead (st : Store) (lead_id : String) (data : Doc) :
    Except HErr (Store × Doc) :=
  (updateHandler st.lead lead_id data).map
    (fun r => ({ st with lead := r.1 }, r.2))

/-- The handler `update_deal` (src/main.py lines 127-134). -/
def update_deal (st : Store) (deal_id : String) (data : Doc) :
    Except HErr (Store × Doc) :=
  (updateHandler st.deal deal_id data).map
    (fun r => ({ st with deal := r.1 }, r.2))

/-- The handler `update_task` (src/main.py lines 151-158). -/
def update_task (st : Store) (task_id : String) (data : Doc) :
    Except HErr (Store × Doc) :=
  (updateHandler st.task task_id data).map
    (fun r => ({ st with task := r.1 }, r.2))

/-- The worked dashboard example of the spec: deals
[{stage: "won", value: 100}, {stage: "prospecting", value: 50}] and leads
[{status: "qualified"}, {status: "new"}]. -/
def exampleStore : Store :=
  { lead := [[("name", BVal.str "a"), ("status", BVal.str "qualified")],
             [("name", BVal.str "b"), ("status", BVal.str "new")]]
    deal := [[("title", BVal.str "d1"), ("stage", BVal.str "won"),
              ("value", BVal.num 100)],
             [("title", BVal.str "d2"), ("stage", BVal.str "prospecting"),
              ("value", BVal.num 50)]]
    task := []
    activity := [] }

/-- A store with every collection empty. -/
def emptyStore : Store :=
  { lead := [], deal := [], task := [], activity := [] }

/-- The property "`pat` occurs case-insensitively as a substring of the
string field `f` of `d`" (vacuously false when the field is absent or not a
string). -/
def fieldCI (d : Doc) (f pat : String) : Prop :=
  ∃ s, Doc.get d f = some (BVal.str s) ∧ ciContains pat s = true

/-- A store holding one lead, one deal and one task, each carrying the
identifier 507f1f77bcf86cd799439011. -/
def updStore : Store :=
  { lead := [[("_id", BVal.str "507f1f77bcf86cd799439011"),
              ("name", BVal.str "Bob")]]
    deal := [[("_id", BVal.str "507f1f77bcf86cd799439011"),
              ("title", BVal.str "d1")]]
    task := [[("_id", BVal.str "507f1f77bcf86cd799439011"),
              ("title", BVal.str "t1")]]
    activity := [] }

/-- A concrete document used to exercise the update overlay. -/
def docEx : Doc :=
  [("_id", BVal.str "507f1f77bcf86cd799439011"), ("name", BVal.str "Bob")]

/-- A concrete free-form update map: one field that exists in `docEx` and
one that does not. -/
def dataEx : Doc := [("name", BVal.str "Eve"), ("score", BVal.num 7)]

/-- A concrete lead document used to exercise the free-text filter. -/
def leadEx : Doc :=
  [("name", BVal.str "Alice"), ("email", BVal.str "alice@example.com"),
   ("status", BVal.str "new")]

/-! Theorems for the verified properties. -/

/-- C2: Lead creation accepts a `score` exactly when it lies in [0, 100]
(whatever the email validator does); in particular a Lead body with
`score = 150` fails schema validation and one with `score = 100` passes. -/
theorem lead_score_validation :
    (∀ (emailOk : String → Bool) (v : Int),
        leadValid emailOk { name := "x", score := some v } = true ↔
          0 ≤ v ∧ v ≤ 100) ∧
    (∀ emailOk : String → Bool,
        leadValid emailOk { name := "x", score := some 150 } = false) ∧
    (∀ emailOk : String → Bool,
        leadValid emailOk { name := "x", score := some 100 } = true) := by
  refine ⟨fun emailOk v => ?_, fun emailOk => ?_, fun emailOk => ?_⟩ <;>
    simp [leadValid, statusOk, scoreOk]

/-- C3 counterexample: a Deal create body with the negative value -1 passes
schema validation, so validation does not fail on every request with
value < 0. -/
theorem deal_negative_value_accepted :
    dealValid { title := "x", value := some (-1) } = true ∧
    dealValue { title := "x", value := some (-1) } = -1 ∧
    (-1 : ℚ) < 0 :=
  ⟨rfl, rfl, by norm_num⟩

/-- C3 amended: `value` defaults to 0 when omitted, but no bound on it is
enforced: Deal validation is independent of `value` (only `probability`
carries the [0, 100] range constraint). -/
theorem deal_value_unconstrained :
    (∀ (d : DealIn) (v : Option ℚ), dealValid { d with value := v } = dealValid d) ∧
    (∀ d : DealIn, dealValue { d with value := none } = 0) ∧
    (∀ (d : DealIn) (p : Int),
        dealValid { d with probability := some p } = true ↔ 0 ≤ p ∧ p ≤ 100) :=
  ⟨fun _ _ => rfl, fun _ => rfl, fun _ p => by simp [dealValid]⟩

/-- C9 counterexample: the response of a successful create has "_id" as its
single key, not "id". -/
theorem create_response_key_not_id :
    ((create_lead emptyStore [("name", BVal.str "Ada")]
        "507f1f77bcf86cd799439011").2.map Prod.fst = ["_id"]) ∧
    ((create_lead emptyStore [("name", BVal.str "Ada")]
        "507f1f77bcf86cd799439011").2.map Prod.fst ≠ ["id"]) :=
  ⟨rfl, by decide⟩

/-- C9 amended: every successful create (lead, deal, task, activity) returns
a JSON object whose single key is "_id", mapped to the newly assigned
identifier rendered as a string. -/
theorem create_response_single_key :
    ∀ (st : Store) (payload : Doc) (newId : String),
      (create_lead st payload newId).2 = [("_id", BVal.str newId)] ∧
      (create_deal st payload newId).2 = [("_id", BVal.str newId)] ∧
      (create_task st payload newId).2 = [("_id", BVal.str newId)] ∧
      (create_activity st payload newId).2 = [("_id", BVal.str newId)] :=
  fun _ _ _ => ⟨rfl, rfl, rfl, rfl⟩

/-- C10: on every list endpoint, an empty-string filter parameter builds the
same query as an omitted parameter (Python truthiness drops both), hence
yields exactly the same documents. -/
theorem empty_string_filters_dropped :
    ∀ (st : Store) (a b : Option String) (limit : Nat),
      list_leads st (some "") b limit = list_leads st none b limit ∧
      list_leads st a (some "") limit = list_leads st a none limit ∧
      list_deals st (some "") b limit = list_deals st none b limit ∧
      list_deals st a (some "") limit = list_deals st a none limit ∧
      list_tasks st (some "") b limit = list_tasks st none b limit ∧
      list_tasks st a (some "") limit = list_tasks st a none limit ∧
      list_activities st (some "") b limit = list_activities st none b limit ∧
      list_activities st a (some "") limit = list_activities st a none limit := by
  intro st a b limit
  refine ⟨?_, ?_, ?_, ?_, ?_, rfl, ?_, ?_⟩ <;>
    simp [list_leads, list_deals, list_tasks, list_activities,
      list_leads_query, list_deals_query, list_tasks_query,
      list_activities_query, optFilter]

/-- C1: the dashboard's conversion rate is the count of leads with status
"qualified" divided by the total lead count, times 100, rounded to 2 decimal
places, and is 0 whenever the total lead count is 0. -/
theorem dashboard_conversion_rate :
    ∀ st : Store,
      (st.lead.length ≠ 0 →
        (dashboard_snapshot st).conversionRate =
          pyRound2 ((st.lead.countP
              (fun d => Doc.get d "status" == some (BVal.str "qualified")) : ℚ) /
            (st.lead.length : ℚ) * 100)) ∧
      (st.lead.length = 0 → (dashboard_snapshot st).conversionRate = 0) := by
  intro st
  have htotal : countDocs st.lead [] = st.lead.length := by
    simp [countDocs, qmatches]
  have hqual : countDocs st.lead [Clause.atom (Atom.eqv "status" (BVal.str "qualified"))]
      = st.lead.countP (fun d => Doc.get d "status" == some (BVal.str "qualified")) := by
    simp [countDocs, qmatches, Clause.holds, Atom.holds, List.countP_eq_length_filter]
  constructor
  · intro h
    simp [dashboard_snapshot, htotal, hqual, h]
  · intro h
    simp [dashboard_snapshot, htotal, h]
    norm_num [pyRound2, roundHalfEven, ratFloor]

/-- C1 witness: on the spec's worked example (1 qualified of 2 leads) the
conversion rate is 50, and on an empty lead collection it is 0. -/
theorem dashboard_conversion_rate_witness :
    (dashboard_snapshot exampleStore).conversionRate = 50 ∧
    (dashboard_snapshot emptyStore).conversionRate = 0 := by
  constructor
  · have h := (dashboard_conversion_rate exampleStore).1 (by decide)
    have hc : (exampleStore.lead.countP
        (fun d => Doc.get d "status" == some (BVal.str "qualified"))) = 1 := by decide
    have hl : exampleStore.lead.length = 2 := by decide
    rw [h, hc, hl]
    norm_num [pyRound2, roundHalfEven, ratFloor]
  · exact (dashboard_conversion_rate emptyStore).2 rfl

/-- C6: the dashboard's revenue is the sum of `value` over exactly the deals
whose stage is "won" or "closed-won"; on the spec's worked example (a won
deal of value 100 and a prospecting deal of value 50) it is 100. -/
theorem dashboard_revenue :
    (∀ st : Store,
        (dashboard_snapshot st).revenue =
          ((st.deal.filter (fun d =>
              Doc.get d "stage" == some (BVal.str "won") ||
              Doc.get d "stage" == some (BVal.str "closed-won"))).map docValue).sum) ∧
    (dashboard_snapshot exampleStore).revenue = 100 := by
  constructor
  · intro st
    simp only [dashboard_snapshot]
    congr 2
    apply List.filter_congr
    intro d _
    simp [qmatches, Clause.holds, Atom.holds]
  · simp [dashboard_snapshot, exampleStore, qmatches, Clause.holds, Atom.holds,
      Doc.get, docValue]

/-- C7: the dashboard's pipeline holds one (stage, count) pair per stage
value occurring among the deals, counting the deals with that stage; on the
spec's worked example it contains ("won", 1) and ("prospecting", 1). -/
theorem dashboard_pipeline :
    (∀ (st : Store) (k : BVal) (n : Nat),
        ((k, n) ∈ (dashboard_snapshot st).pipeline ↔
          (∃ d ∈ st.deal, stageKey d = k) ∧
          n = st.deal.countP (fun d => stageKey d == k))) ∧
    ((BVal.str "won", 1) ∈ (dashboard_snapshot exampleStore).pipeline ∧
     (BVal.str "prospecting", 1) ∈ (dashboard_snapshot exampleStore).pipeline) := by
  constructor
  · intro st k n
    simp only [dashboard_snapshot, groupCount]
    simp [List.mem_map, List.mem_dedup, Prod.mk.injEq]
    constructor
    · rintro ⟨d, hd, hk, hn⟩
      subst hk
      exact ⟨⟨d, hd, rfl⟩, hn.symm⟩
    · rintro ⟨⟨d, hd, hk⟩, hn⟩
      subst hk
      exact ⟨d, hd, rfl, hn.symm⟩
  · constructor <;> decide

/-- Helper: when no document carries the identifier, `update_one` matches
nothing. -/
lemma updateOne_snd_eq_zero (docs : List Doc) (idv : BVal) (data : Doc)
    (h : ∀ d ∈ docs, Doc.get d "_id" ≠ some idv) :
    (updateOne docs idv data).2 = 0 := by
  induction docs with
  | nil => rfl
  | cons d rest ih =>
    have hd : Doc.get d "_id" ≠ some idv := h d (List.mem_cons_self d rest)
    simp only [updateOne]
    rw [if_neg hd]
    exact ih (fun d2 hd2 => h d2 (List.mem_cons_of_mem d hd2))

/-- Helper: when some document carries the identifier, `update_one` matches
exactly one. -/
lemma updateOne_snd_eq_one (docs : List Doc) (idv : BVal) (data : Doc)
    (h : ∃ d ∈ docs, Doc.get d "_id" = some idv) :
    (updateOne docs idv data).2 = 1 := by
  induction docs with
  | nil => simp at h
  | cons d rest ih =>
    by_cases hd : Doc.get d "_id" = some idv
    · simp [updateOne, hd]
    · have h2 : ∃ d2 ∈ rest, Doc.get d2 "_id" = some idv := by
        rcases h with ⟨d2, hmem, hid⟩
        rcases List.mem_cons.1 hmem with rfl | hmem2
        · exact absurd hid hd
        · exact ⟨d2, hmem2, hid⟩
      simp [updateOne, hd, ih h2]

/-- C4: every update endpoint (lead, deal, task) answers HTTP 400
(InvalidIdentifier) on a malformed path identifier, HTTP 404 (NotFound) on a
well-formed identifier no document carries, and `{"updated": true}` when a
document carries it. -/
theorem update_identifier_errors :
    ∀ (st : Store) (idStr : String) (data : Doc),
      (isValidObjectId idStr = false →
        update_lead st idStr data = .error .invalidId ∧
        update_deal st idStr data = .error .invalidId ∧
        update_task st idStr data = .error .invalidId) ∧
      (isValidObjectId idStr = true →
        ((∀ d ∈ st.lead, Doc.get d "_id" ≠ some (BVal.str idStr)) →
            update_lead st idStr data = .error .notFound) ∧
        ((∀ d ∈ st.deal, Doc.get d "_id" ≠ some (BVal.str idStr)) →
            update_deal st idStr data = .error .notFound) ∧
        ((∀ d ∈ st.task, Doc.get d "_id" ≠ some (BVal.str idStr)) →
            update_task st idStr data = .error .notFound)) ∧
      (isValidObjectId idStr = true →
        ((∃ d ∈ st.lead, Doc.get d "_id" = some (BVal.str idStr)) →
            ∃ st2, update_lead st idStr data =
              .ok (st2, [("updated", BVal.bool true)])) ∧
        ((∃ d ∈ st.deal, Doc.get d "_id" = some (BVal.str idStr)) →
            ∃ st2, update_deal st idStr data =
              .ok (st2, [("updated", BVal.bool true)])) ∧
        ((∃ d ∈ st.task, Doc.get d "_id" = some (BVal.str idStr)) →
            ∃ st2, update_task st idStr data =
              .ok (st2, [("updated", BVal.bool true)]))) ∧
      HErr.code .invalidId = 400 ∧ HErr.code .notFound = 404 := by
  intro st idStr data
  refine ⟨fun hbad => ?_, fun hok => ?_, fun hok => ?_, rfl, rfl⟩
  · simp [update_lead, update_deal, update_task, updateHandler, hbad, Except.map]
  · refine ⟨fun h => ?_, fun h => ?_, fun h => ?_⟩ <;>
      simp [update_lead, update_deal, update_task, updateHandler, hok, Except.map,
        updateOne_snd_eq_zero _ _ data h]
  · refine ⟨fun h => ?_, fun h => ?_, fun h => ?_⟩ <;>
      simp [update_lead, update_deal, update_task, updateHandler, hok, Except.map,
        updateOne_snd_eq_one _ _ data h]

/-- C4 witness: with one lead carrying identifier
507f1f77bcf86cd799439011, the malformed identifier "zz" yields HTTP 400, a
well-formed absent identifier yields HTTP 404, and the present identifier
yields `{"updated": true}`. -/
theorem update_identifier_errors_witness :
    update_lead updStore "zz" [] = .error .invalidId ∧
    update_lead emptyStore "507f1f77bcf86cd799439011" [] = .error .notFound ∧
    (∃ st2, update_lead updStore "507f1f77bcf86cd799439011" [] =
      .ok (st2, [("updated", BVal.bool true)])) := by
  refine ⟨?_, ?_, ?_⟩
  · exact ((update_identifier_errors updStore "zz" []).1 (by decide)).1
  · exact (((update_identifier_errors emptyStore "507f1f77bcf86cd799439011" []).2.1
      (by decide)).1 (by simp [emptyStore]))
  · exact (((update_identifier_errors updStore "507f1f77bcf86cd799439011" []).2.2.1
      (by decide)).1
      ⟨[("_id", BVal.str "507f1f77bcf86cd799439011"), ("name", BVal.str "Bob")],
        by simp [updStore], rfl⟩)

/-- Helper: field lookup on a cons cell. -/
lemma get_cons (p : String × BVal) (l : Doc) (k : String) :
    Doc.get (p :: l) k = if p.1 = k then some p.2 else Doc.get l k := by
  by_cases h : p.1 = k <;> simp [Doc.get, List.find?_cons, h]

/-- Helper: a key is absent exactly when no binding carries it. -/
lemma get_eq_none_iff (d : Doc) (k : String) :
    Doc.get d k = none ↔ d.any (fun p => p.1 == k) = false := by
  induction d with
  | nil => simp [Doc.get]
  | cons p rest ih =>
    by_cases hp : p.1 = k <;> simp [get_cons, List.any_cons, hp, ih]

/-- Helper: replacing the bindings of key `k` leaves other keys unchanged. -/
lemma get_map_replace (d : Doc) (k k2 : String) (v : BVal) (hne : k2 ≠ k) :
    Doc.get (d.map (fun p => if p.1 = k then (k, v) else p)) k2 = Doc.get d k2 := by
  have hkk : ¬ k = k2 := fun e => hne e.symm
  induction d with
  | nil => rfl
  | cons p rest ih =>
    by_cases hp : p.1 = k
    · simp [get_cons, hp, hkk, ih]
    · by_cases hp2 : p.1 = k2 <;> simp [get_cons, hp, hp2, hne, ih]

/-- Helper: appending a binding for key `k` leaves other keys unchanged. -/
lemma get_append_single_other (d : Doc) (k k2 : String) (v : BVal) (hne : k2 ≠ k) :
    Doc.get (d ++ [(k, v)]) k2 = Doc.get d k2 := by
  have hkk : ¬ k = k2 := fun e => hne e.symm
  induction d with
  | nil => simp [get_cons, Doc.get, hkk]
  | cons p rest ih =>
    by_cases hp : p.1 = k2 <;> simp [get_cons, hp, ih]

/-- Helper: after `setField d k v`, key `k` reads `v`. -/
lemma get_setField_same (d : Doc) (k : String) (v : BVal) :
    Doc.get (setField d k v) k = some v := by
  unfold setField
  by_cases h : d.any (fun p => p.1 == k) = true
  · rw [if_pos h]
    induction d with
    | nil => simp at h
    | cons p rest ih =>
      by_cases hp : p.1 = k
      · simp [get_cons, hp]
      · simp only [List.any_cons, Bool.or_eq_true, beq_iff_eq, hp, false_or] at h
        simpa [get_cons, hp] using ih (by simpa using h)
  · rw [if_neg h]
    induction d with
    | nil => simp [get_cons, Doc.get]
    | cons p rest ih =>
      simp only [List.any_cons, Bool.or_eq_true, beq_iff_eq, not_or] at h
      simpa [get_cons, h.1] using ih (by simpa using h.2)

/-- Helper: after `setField d k v`, every other key is unchanged. -/
lemma get_setField_other (d : Doc) (k k2 : String) (v : BVal) (hne : k2 ≠ k) :
    Doc.get (setField d k v) k2 = Doc.get d k2 := by
  unfold setField
  by_cases h : d.any (fun p => p.1 == k) = true
  · rw [if_pos h]
    exact get_map_replace d k k2 v hne
  · rw [if_neg h]
    exact get_append_single_other d k k2 v hne

/-- C5: the `$set` update overlays exactly the fields of the free-form map
onto the existing document — every key of the map reads the map's value
afterwards, every other key is unchanged, and no validation is involved (the
map is arbitrary); and that is precisely what `update_one` applies to the
matched document. -/
theorem update_overlay :
    (∀ (d data : Doc), (data.map Prod.fst).Nodup →
        (∀ k v, Doc.get data k = some v → Doc.get (applySet d data) k = some v) ∧
        (∀ k, Doc.get data k = none → Doc.get (applySet d data) k = Doc.get d k)) ∧
    (∀ (d : Doc) (rest : List Doc) (idv : BVal) (data : Doc),
        Doc.get d "_id" = some idv →
        updateOne (d :: rest) idv data = (applySet d data :: rest, 1)) := by
  constructor
  · intro d data
    induction data generalizing d with
    | nil =>
      intro _
      refine ⟨fun k v hk => ?_, fun k _ => rfl⟩
      simp [Doc.get] at hk
    | cons p rest ih =>
      intro hnodup
      obtain ⟨k0, v0⟩ := p
      simp only [List.map_cons, List.nodup_cons] at hnodup
      obtain ⟨hk0, hnd⟩ := hnodup
      have happ : applySet d ((k0, v0) :: rest) = applySet (setField d k0 v0) rest := rfl
      have hrest0 : Doc.get rest k0 = none := by
        rw [get_eq_none_iff]
        simp only [List.any_eq_false, beq_iff_eq]
        intro p hp
        exact fun e => hk0 (List.mem_map.2 ⟨p, hp, e⟩)
      constructor
      · intro k v hk
        rw [happ]
        rw [get_cons] at hk
        by_cases hkk : k0 = k
        · subst hkk
          simp at hk
          subst hk
          rw [(ih (setField d k0 v0) hnd).2 k0 hrest0]
          exact get_setField_same d k0 v0
        · rw [if_neg hkk] at hk
          exact (ih (setField d k0 v0) hnd).1 k v hk
      · intro k hk
        rw [happ]
        rw [get_cons] at hk
        by_cases hkk : k0 = k
        · rw [if_pos hkk] at hk
          exact absurd hk (by simp)
        · rw [if_neg hkk] at hk
          rw [(ih (setField d k0 v0) hnd).2 k hk]
          exact get_setField_other d k0 k v0 (fun e => hkk e.symm)
  · intro d rest idv data h
    simp [updateOne, h]

/-- C5 witness: overlaying `{"name": "Eve", "score": 7}` onto a document
with fields `_id` and `name` rewrites `name`, adds `score`, and leaves `_id`
unchanged; `update_one` applies exactly this overlay to the matched
document. -/
theorem update_overlay_witness :
    Doc.get (applySet docEx dataEx) "name" = some (BVal.str "Eve") ∧
    Doc.get (applySet docEx dataEx) "score" = some (BVal.num 7) ∧
    Doc.get (applySet docEx dataEx) "_id" = Doc.get docEx "_id" ∧
    updateOne [docEx] (BVal.str "507f1f77bcf86cd799439011") dataEx =
      ([applySet docEx dataEx], 1) := by
  have h := update_overlay.1 docEx dataEx (by decide)
  exact ⟨h.1 "name" (BVal.str "Eve") rfl, h.1 "score" (BVal.num 7) rfl,
    h.2 "_id" rfl,
    update_overlay.2 docEx [] (BVal.str "507f1f77bcf86cd799439011") dataEx rfl⟩

/-- Helper: an equality atom holds exactly when the field is present with
the value. -/
lemma eqv_holds_iff (d : Doc) (f : String) (v : BVal) :
    Atom.holds d (Atom.eqv f v) = true ↔ Doc.get d f = some v := by
  simp [Atom.holds]

/-- Helper: a free-text atom holds exactly when the field is a present
string containing the pattern case-insensitively. -/
lemma regexI_holds_iff (d : Doc) (f pat : String) :
    Atom.holds d (Atom.regexI f pat) = true ↔ fieldCI d f pat := by
  unfold Atom.holds fieldCI
  cases hg : Doc.get d f with
  | none => simp [hg]
  | some v => cases v <;> simp [hg]

/-- C8: for a truthy free-text parameter `q`, a lead matches the list query
exactly when `q` occurs case-insensitively in its name, its email, or its
phone, and — when a truthy status parameter is also given — its status
additionally equals it. -/
theorem lead_q_filter :
    ∀ (qs : String) (sOpt : Option String) (d : Doc),
      qs ≠ "" → sOpt ≠ some "" →
      (qmatches d (list_leads_query sOpt (some qs)) = true ↔
        ((fieldCI d "name" qs ∨ fieldCI d "email" qs ∨ fieldCI d "phone" qs) ∧
         ∀ s, sOpt = some s → Doc.get d "status" = some (BVal.str s))) := by
  intro qs sOpt d hqs hsOpt
  cases sOpt with
  | none =>
    simp only [list_leads_query, optFilter, if_neg hqs, List.nil_append]
    simp [qmatches, Clause.holds, regexI_holds_iff]
  | some s =>
    have hs : ¬ s = "" := fun e => hsOpt (by rw [e])
    simp only [list_leads_query, optFilter, if_neg hqs, if_neg hs]
    simp [qmatches, Clause.holds, eqv_holds_iff, regexI_holds_iff]
    tauto

/-- C8 witness: the lead named "Alice" with status "new" matches the query
built from status "new" and free text "ALi" (a case-insensitive substring of
its name). -/
theorem lead_q_filter_witness :
    qmatches leadEx (list_leads_query (some "new") (some "ALi")) = true :=
  (lead_q_filter "ALi" (some "new") leadEx (by decide) (by decide)).mpr
    ⟨Or.inl ⟨"Alice", rfl, by decide⟩, fun s hs => by cases hs; rfl⟩

end CRM
